import Mathlib

/-!
Shallow embedding of the execution core of the `tesser` trading runtime
(`src/tesser-execution/src/lib.rs` and `src/tesser-execution/src/wasm/adapter.rs`).

`rust_decimal::Decimal` is modelled by `ℚ`: every finite `Decimal` is a
rational, and the operations used on the verified paths (add, sub, neg, abs,
comparison, multiplication, and the divisions appearing in the claims, all of
which are exact at the inputs considered) agree with rational arithmetic.
Strings (symbols, ids) are Lean `String`s; `serde_json::Value` is modelled by
a small JSON tree type.
-/

namespace Tesser

instance {ε α : Type} [DecidableEq ε] [DecidableEq α] : DecidableEq (Except ε α)
  | .error e, .error f =>
    if h : e = f then .isTrue (by rw [h]) else .isFalse (by simp [h])
  | .error _, .ok _ => .isFalse (by simp)
  | .ok _, .error _ => .isFalse (by simp)
  | .ok x, .ok y =>
    if h : x = y then .isTrue (by rw [h]) else .isFalse (by simp [h])

/-- Embeds `tesser_core::Side`. -/
inductive Side
  | Buy
  | Sell
deriving Repr, DecidableEq

/-- Embeds `tesser_core::OrderType` (the variants the execution core constructs). -/
inductive OrderType
  | Market
  | Limit
  | StopMarket
deriving Repr, DecidableEq

/-- Embeds `tesser_core::TimeInForce`. -/
inductive TimeInForce
  | GoodTilCanceled
  | ImmediateOrCancel
  | FillOrKill
deriving Repr, DecidableEq

/-- Embeds `tesser_core::OrderRequest` — the order payload built by the engine and
checked by the risk layer.  `Decimal` fields are rationals. -/
structure OrderRequest where
  symbol : String
  side : Side
  order_type : OrderType
  quantity : ℚ
  price : Option ℚ
  trigger_price : Option ℚ
  time_in_force : Option TimeInForce
  client_order_id : Option String
  take_profit : Option ℚ
  stop_loss : Option ℚ
  display_quantity : Option ℚ
deriving Repr, DecidableEq

/-- Embeds `RiskContext` (`src/tesser-execution/src/lib.rs`): exposure snapshot
passed to pre-trade risk checks. -/
structure RiskContext where
  signed_position_qty : ℚ
  portfolio_equity : ℚ
  last_price : ℚ
  liquidate_only : Bool
deriving Repr, DecidableEq

/-- Embeds `RiskLimits`: upper bounds enforced by the `BasicRiskChecker`. The Rust
fields are `f64`; we model the rational value of the (finite) limit. -/
structure RiskLimits where
  max_order_quantity : ℚ
  max_position_quantity : ℚ
deriving Repr, DecidableEq

/-- Embeds `RiskLimits::sanitized`: clamp both limits to be non-negative
(`f64::max(0.0)`; NaN has no rational model, so the NaN→0 clause is outside
the embedding). -/
def RiskLimits.sanitized (l : RiskLimits) : RiskLimits :=
  { max_order_quantity := max l.max_order_quantity 0
    max_position_quantity := max l.max_position_quantity 0 }

/-- Embeds `RiskError` from `src/tesser-execution/src/lib.rs`. -/
inductive RiskError
  | MaxOrderSize (quantity limit : ℚ)
  | MaxPositionExposure (projected limit : ℚ)
  | LiquidateOnly
deriving Repr, DecidableEq

/-- Embeds `BasicRiskChecker::new`: stores the sanitized limits. -/
def BasicRiskChecker.new (limits : RiskLimits) : RiskLimits :=
  limits.sanitized

/-- The projected post-trade position computed inside
`BasicRiskChecker::check`: Buy adds `|quantity|`, Sell subtracts it. -/
def projectedPosition (request : OrderRequest) (ctx : RiskContext) : ℚ :=
  match request.side with
  | Side.Buy => ctx.signed_position_qty + |request.quantity|
  | Side.Sell => ctx.signed_position_qty - |request.quantity|

/-- Embeds `BasicRiskChecker::check` (`src/tesser-execution/src/lib.rs`, lines
170–216), transcribed clause by clause:
1. fat-finger order-size limit (when enabled, i.e. `> 0`);
2. projected-position limit (when enabled);
3. liquidate-only mode: reject when the position is zero, when the side does
   not reduce exposure, or when the order would flip the position. -/
def BasicRiskChecker.check (limits : RiskLimits) (request : OrderRequest)
    (ctx : RiskContext) : Except RiskError Unit :=
  let qty := |request.quantity|
  let max_order := limits.max_order_quantity
  if max_order > 0 ∧ qty > max_order then
    Except.error (RiskError.MaxOrderSize qty max_order)
  else
    let projected_position := projectedPosition request ctx
    let max_position := limits.max_position_quantity
    if max_position > 0 ∧ |projected_position| > max_position then
      Except.error (RiskError.MaxPositionExposure projected_position max_position)
    else if ctx.liquidate_only then
      let position := ctx.signed_position_qty
      if position = 0 then
        Except.error RiskError.LiquidateOnly
      else
        let reduces := (position > 0 ∧ request.side = Side.Sell)
          ∨ (position < 0 ∧ request.side = Side.Buy)
        if ¬reduces then
          Except.error RiskError.LiquidateOnly
        else if qty > |position| then
          Except.error RiskError.LiquidateOnly
        else
          Except.ok ()
    else
      Except.ok ()

/-- A market order request with only the fields the risk checker reads set to
interesting values; used to instantiate concrete scenarios. -/
def mkMarketRequest (side : Side) (qty : ℚ) : OrderRequest :=
  { symbol := "BTCUSDT"
    side := side
    order_type := OrderType.Market
    quantity := qty
    price := none
    trigger_price := none
    time_in_force := none
    client_order_id := none
    take_profit := none
    stop_loss := none
    display_quantity := none }

/-- Risk context for the liquidate-only scenario of the spec. -/
def liqCtx (pos : ℚ) : RiskContext :=
  { signed_position_qty := pos
    portfolio_equity := 10000
    last_price := 100
    liquidate_only := true }

/-- Risk context with liquidate-only mode off. -/
def plainCtx (pos : ℚ) : RiskContext :=
  { signed_position_qty := pos
    portfolio_equity := 10000
    last_price := 100
    liquidate_only := false }

/-- Embeds `tesser_core::SignalKind`. -/
inductive SignalKind
  | EnterLong
  | ExitLong
  | EnterShort
  | ExitShort
  | Flatten
deriving Repr, DecidableEq

/-- Embeds `tesser_core::Signal` — the fields the execution engine reads. -/
structure Signal where
  id : String
  symbol : String
  kind : SignalKind
  stop_loss : Option ℚ
  take_profit : Option ℚ
deriving Repr, DecidableEq

/-- Error cases of the order sizers (`anyhow` errors in the source; the
`bail!` message "cannot size order with zero or negative price" is the
`ZeroOrNegativePrice` case, and `decimal_from_f64`'s rejection of non-finite
input is `NonFiniteValue`). -/
inductive SizerError
  | ZeroOrNegativePrice
  | NonFiniteValue
deriving Repr, DecidableEq

/-- Embeds `PortfolioPercentSizer::size` (`src/tesser-execution/src/lib.rs`, lines
59–76): reject `last_price ≤ 0`; convert `percent` (here already a rational,
i.e. a finite `f64` faithfully converted); if `percent ≤ 0` return zero;
otherwise `equity · percent / last_price`. -/
def PortfolioPercentSizer.size (percent : ℚ) (portfolio_equity last_price : ℚ) :
    Except SizerError ℚ :=
  if last_price ≤ 0 then
    Except.error SizerError.ZeroOrNegativePrice
  else if percent ≤ 0 then
    Except.ok 0
  else
    let notional := portfolio_equity * percent
    Except.ok (notional / last_price)

/-- Embeds `tesser_broker::BrokerError` (crate external to the execution core; the
spec lists its variants).  In the source `InvalidRequest` carries the
rendered risk-error message and `Other` the rendered sizing error; the
embedding carries the value that is rendered instead of its string form. -/
inductive BrokerError
  | Network (msg : String)
  | InvalidRequest (err : RiskError)
  | Rejected (msg : String)
  | RateLimited (msg : String)
  | Other (err : SizerError)
deriving Repr, DecidableEq

/-- Embeds `tesser_core::Order` — produced by the client on successful placement.
Only the fields the engine reads (`id`, `request`) are modelled; order state
and timestamps never influence the verified paths. -/
structure Order where
  id : String
  request : OrderRequest
deriving Repr, DecidableEq

/-- Embeds `ExecutionEngine`'s dependencies.  The shared `ExecutionClient` enters
as the deterministic placement oracle `place_order`; the boxed sizer and the
risk checker are the other two function fields. -/
structure ExecutionEngine where
  place_order : OrderRequest → Except BrokerError Order
  sizer : Signal → ℚ → ℚ → Except SizerError ℚ
  risk : OrderRequest → RiskContext → Except RiskError Unit

/-- Embeds `ExecutionEngine::build_request` (`src/tesser-execution/src/lib.rs`,
lines 395–415): a Market order with no price, no trigger price, no
time-in-force, and the given client id. -/
def ExecutionEngine.build_request (symbol : String) (side : Side) (qty : ℚ)
    (client_order_id : Option String) : OrderRequest :=
  { symbol := symbol
    side := side
    order_type := OrderType.Market
    quantity := qty
    price := none
    trigger_price := none
    time_in_force := none
    client_order_id := client_order_id
    take_profit := none
    stop_loss := none
    display_quantity := none }

/-- Embeds `ExecutionEngine::send_order`: run the risk check (a failure becomes
`BrokerError::InvalidRequest`), then place via the client. -/
def ExecutionEngine.send_order (e : ExecutionEngine) (request : OrderRequest)
    (ctx : RiskContext) : Except BrokerError Order :=
  match e.risk request ctx with
  | Except.error err => Except.error (BrokerError.InvalidRequest err)
  | Except.ok _ => e.place_order request

/-- The parent order's side, from the `match signal.kind` in
`handle_signal`: EnterLong → Buy; ExitLong, Flatten → Sell;
EnterShort → Sell; ExitShort → Buy. -/
def parentSide : SignalKind → Side
  | SignalKind.EnterLong => Side.Buy
  | SignalKind.ExitLong => Side.Sell
  | SignalKind.Flatten => Side.Sell
  | SignalKind.EnterShort => Side.Sell
  | SignalKind.ExitShort => Side.Buy

/-- The protective side, from the `stop_side` match in `handle_signal`:
`none` is the early `return` taken for Flatten (no protective legs);
otherwise the side opposite the parent direction. -/
def stopSide : SignalKind → Option Side
  | SignalKind.EnterLong => some Side.Sell
  | SignalKind.ExitShort => some Side.Sell
  | SignalKind.EnterShort => some Side.Buy
  | SignalKind.ExitLong => some Side.Buy
  | SignalKind.Flatten => none

/-- The protective-leg request built inline in `handle_signal` for the
stop-loss (`suffix = "-sl"`) and take-profit (`suffix = "-tp"`) legs: a
StopMarket on the protective side with the parent's quantity, triggered at
the configured level, client id `<signal.id><suffix>`. -/
def protectiveRequest (signal : Signal) (side : Side) (qty trigger : ℚ)
    (suffix : String) : OrderRequest :=
  { symbol := signal.symbol
    side := side
    order_type := OrderType.StopMarket
    quantity := qty
    price := none
    trigger_price := some trigger
    time_in_force := none
    client_order_id := some (signal.id ++ suffix)
    take_profit := none
    stop_loss := none
    display_quantity := none }

/-- Embeds `ExecutionEngine::handle_signal` (`src/tesser-execution/src/lib.rs`,
lines 302–393).  The second component records every request passed to
`send_order`, in call order: the parent first, then the stop-loss and
take-profit legs.  A protective leg's `send_order` failure is only logged
in the source (`warn!`) and never affects the returned value, which the
embedding renders by recording the leg and discarding its result. -/
def ExecutionEngine.handle_signal (e : ExecutionEngine) (signal : Signal)
    (ctx : RiskContext) :
    Except BrokerError (Option Order) × List OrderRequest :=
  match e.sizer signal ctx.portfolio_equity ctx.last_price with
  | Except.error err => (Except.error (BrokerError.Other err), [])
  | Except.ok qty =>
    if qty ≤ 0 then
      (Except.ok none, [])
    else
      let client_order_id := signal.id
      let request := ExecutionEngine.build_request signal.symbol
        (parentSide signal.kind) qty (some client_order_id)
      match e.send_order request ctx with
      | Except.error err => (Except.error err, [request])
      | Except.ok order =>
        match stopSide signal.kind with
        | none => (Except.ok (some order), [request])
        | some stop_side =>
          let sl_legs := match signal.stop_loss with
            | some sl_price =>
              [protectiveRequest signal stop_side qty sl_price "-sl"]
            | none => []
          let tp_legs := match signal.take_profit with
            | some tp_price =>
              [protectiveRequest signal stop_side qty tp_price "-tp"]
            | none => []
          (Except.ok (some order), request :: (sl_legs ++ tp_legs))

/-- Concrete engine for the SL/TP best-effort scenario: fixed sizing of 1,
no-op risk, and a broker that accepts Market orders but fails StopMarket
placements with a network error. -/
def demoEngine : ExecutionEngine :=
  { place_order := fun req =>
      match req.order_type with
      | OrderType.StopMarket => Except.error (BrokerError.Network "connection reset")
      | _ => Except.ok { id := "order-1", request := req }
    sizer := fun _ _ _ => Except.ok 1
    risk := fun _ _ => Except.ok () }

/-- Concrete engine whose sizer returns a zero quantity. -/
def zeroEngine : ExecutionEngine :=
  { place_order := fun req => Except.ok { id := "order-1", request := req }
    sizer := fun _ _ _ => Except.ok 0
    risk := fun _ _ => Except.ok () }

/-- Concrete signal with both protective levels configured. -/
def demoSignal : Signal :=
  { id := "sig-1"
    symbol := "BTCUSDT"
    kind := SignalKind.EnterLong
    stop_loss := some 90
    take_profit := some 120 }

/-- Embeds `serde_json::Value`: a self-describing JSON tree, used for the opaque
plugin parameters, metadata and snapshot payloads. -/
inductive JsonValue
  | null
  | bool (b : Bool)
  | num (q : ℚ)
  | str (s : String)
  | arr (items : List JsonValue)
  | obj (fields : List (String × JsonValue))

/-- Embeds `AlgoStatus` from `tesser-execution`'s `algorithm` module (declared in
`lib.rs`; the module body is not in the source tree, so the variants come
from the spec's data model and from their uses in `wasm/adapter.rs`). -/
inductive AlgoStatus
  | Working
  | Completed
  | Cancelled
  | Failed
deriving Repr, DecidableEq

/-- Embeds `tesser_wasm::PluginInitContext`.  The marshalled `PluginSignal` and
`PluginRiskContext` records and the params/metadata blobs are copied around
by the adapter, never inspected, so they are carried as JSON values. -/
structure PluginInitContext where
  plugin : String
  params : JsonValue
  signal : JsonValue
  risk : JsonValue
  metadata : JsonValue

/-- Embeds `WasmAlgorithmState` (`src/tesser-execution/src/wasm/adapter.rs`):
serialized representation of a plugin-backed algorithm. -/
structure WasmAlgorithmState where
  plugin : PluginInitContext
  plugin_state : JsonValue
  status : AlgoStatus
  next_client_seq : ℕ

/-- Embeds `WasmAlgorithm`'s host-side fields.  `id` is the algorithm `Uuid` in the
simple (dashless hex) form used to build client ids; the sandbox instance
behind the mutex appears only through the oracle parameters of the
callbacks below. -/
structure WasmAlgorithm where
  id : String
  status : AlgoStatus
  started : Bool
  context : PluginInitContext
  plugin_state : JsonValue
  next_client_seq : ℕ

/-- Embeds `tesser_wasm::PluginSide`. -/
inductive PluginSide
  | Buy
  | Sell
deriving Repr, DecidableEq

/-- Embeds `tesser_wasm::PluginOrderType`. -/
inductive PluginOrderType
  | Market
  | Limit
deriving Repr, DecidableEq

/-- Embeds `tesser_wasm::PluginTimeInForce`. -/
inductive PluginTimeInForce
  | Gtc
  | Ioc
  | Fok
  | PostOnly
deriving Repr, DecidableEq

/-- Embeds `tesser_wasm::PluginOrderRequest`. -/
structure PluginOrderRequest where
  symbol : String
  side : PluginSide
  order_type : PluginOrderType
  quantity : ℚ
  price : Option ℚ
  trigger_price : Option ℚ
  time_in_force : Option PluginTimeInForce
  client_order_id : Option String
  take_profit : Option ℚ
  stop_loss : Option ℚ
  display_quantity : Option ℚ
deriving Repr, DecidableEq

/-- Embeds `tesser_wasm::PluginOrderUpdateRequest`. -/
structure PluginOrderUpdateRequest where
  order_id : String
  symbol : String
  side : PluginSide
  new_price : Option ℚ
  new_quantity : Option ℚ
deriving Repr, DecidableEq

/-- Embeds `tesser_wasm::PluginChildOrderAction`. -/
inductive PluginChildOrderAction
  | Place (order : PluginOrderRequest)
  | Amend (update : PluginOrderUpdateRequest)
deriving Repr, DecidableEq

/-- Embeds `tesser_wasm::PluginChildOrderRequest`. -/
structure PluginChildOrderRequest where
  action : PluginChildOrderAction
deriving Repr, DecidableEq

/-- Embeds `tesser_wasm::PluginResult` — what the guest returns per call. -/
structure PluginResult where
  orders : List PluginChildOrderRequest
  logs : List String
  completed : Bool
deriving Repr, DecidableEq

/-- Embeds `tesser_core::OrderUpdateRequest`. -/
structure OrderUpdateRequest where
  order_id : String
  symbol : String
  side : Side
  new_price : Option ℚ
  new_quantity : Option ℚ
deriving Repr, DecidableEq

/-- Embeds `ChildOrderAction` from the `algorithm` module (declared in `lib.rs`;
variants per the spec's data model: Place(OrderRequest) |
Amend(OrderUpdateRequest)). -/
inductive ChildOrderAction
  | Place (request : OrderRequest)
  | Amend (update : OrderUpdateRequest)
deriving Repr, DecidableEq

/-- Embeds `ChildOrderRequest` from the `algorithm` module: parent algorithm id
plus the action. -/
structure ChildOrderRequest where
  parent_algo_id : String
  action : ChildOrderAction
deriving Repr, DecidableEq

/-- Embeds `convert_order_request` (`src/tesser-execution/src/wasm/adapter.rs`,
lines 335–365); the `Result` in the source never errors. -/
def convert_order_request (req : PluginOrderRequest) : OrderRequest :=
  { symbol := req.symbol
    side := match req.side with
      | PluginSide.Buy => Side.Buy
      | PluginSide.Sell => Side.Sell
    order_type := match req.order_type with
      | PluginOrderType.Market => OrderType.Market
      | PluginOrderType.Limit => OrderType.Limit
    quantity := req.quantity
    price := req.price
    trigger_price := req.trigger_price
    time_in_force := match req.time_in_force with
      | some PluginTimeInForce.Gtc => some TimeInForce.GoodTilCanceled
      | some PluginTimeInForce.Ioc => some TimeInForce.ImmediateOrCancel
      | some PluginTimeInForce.Fok => some TimeInForce.FillOrKill
      | some PluginTimeInForce.PostOnly => none
      | none => none
    client_order_id := req.client_order_id
    take_profit := req.take_profit
    stop_loss := req.stop_loss
    display_quantity := req.display_quantity }

/-- Embeds `convert_order_update` (`adapter.rs`, lines 367–380). -/
def convert_order_update (req : PluginOrderUpdateRequest) : OrderUpdateRequest :=
  { order_id := req.order_id
    symbol := req.symbol
    side := match req.side with
      | PluginSide.Buy => Side.Buy
      | PluginSide.Sell => Side.Sell
    new_price := req.new_price
    new_quantity := req.new_quantity }

/-- Rust's `format!("{:04}", n)`: the decimal digits of `n`, left-padded
with zeros to at least four characters. -/
def pad4 (n : ℕ) : String :=
  let s := toString n
  if s.length < 4 then
    String.mk (List.replicate (4 - s.length) ('0')) ++ s
  else
    s

/-- Embeds `WasmAlgorithm::ensure_client_id` (`adapter.rs`, lines 235–241): when
the guest omitted a client id, bump `next_client_seq` and assign
`plugin-<algo_id_hex>-<seq:04>`; otherwise leave the request untouched. -/
def WasmAlgorithm.ensure_client_id (a : WasmAlgorithm) (order : OrderRequest) :
    OrderRequest × WasmAlgorithm :=
  match order.client_order_id with
  | none =>
    let seq := a.next_client_seq + 1
    let cid := "plugin-" ++ a.id ++ "-" ++ pad4 seq
    ({ order with client_order_id := some cid },
      { a with next_client_seq := seq })
  | some _ => (order, a)

/-- Embeds `WasmAlgorithm::build_child_request` (`adapter.rs`, lines 215–233). -/
def WasmAlgorithm.build_child_request (a : WasmAlgorithm)
    (req : PluginChildOrderRequest) : ChildOrderRequest × WasmAlgorithm :=
  match req.action with
  | PluginChildOrderAction.Place order =>
    let converted := a.ensure_client_id (convert_order_request order)
    (⟨a.id, ChildOrderAction.Place converted.1⟩, converted.2)
  | PluginChildOrderAction.Amend update =>
    (⟨a.id, ChildOrderAction.Amend (convert_order_update update)⟩, a)

/-- The `for req in result.orders` loop of `decode_result`: map
`build_child_request` over the guest's orders, threading the host state. -/
def WasmAlgorithm.mapChildRequests :
    WasmAlgorithm → List PluginChildOrderRequest →
      List ChildOrderRequest × WasmAlgorithm
  | a, [] => ([], a)
  | a, req :: rest =>
    let head := a.build_child_request req
    let tail := head.2.mapChildRequests rest
    (head.1 :: tail.1, tail.2)

/-- Embeds `WasmAlgorithm::decode_result` (`adapter.rs`, lines 139–156) after the
JSON parse succeeded: set `status` to Completed when the guest reports
`completed`, otherwise to Working — regardless of the prior status — then
map the returned child orders. -/
def WasmAlgorithm.decode_result (a : WasmAlgorithm) (result : PluginResult) :
    List ChildOrderRequest × WasmAlgorithm :=
  let a1 := if result.completed
    then { a with status := AlgoStatus.Completed }
    else { a with status := AlgoStatus.Working }
  a1.mapChildRequests result.orders

/-- Shared body of `call_tick`, `call_fill` and `call_timer` (`adapter.rs`,
lines 173–213; the three differ only in which guest entry point produces
the raw reply).  `res` is the guest's reply after JSON parsing
(`Except.error` models a trap or a reply `serde_json::from_str` rejects);
`snap` is the `snapshot()` reply consumed by `refresh_snapshot`.  As with
`&mut self` in the source, mutations made before a failure persist. -/
def WasmAlgorithm.run_callback (a : WasmAlgorithm)
    (res : Except Unit PluginResult) (snap : Except Unit JsonValue) :
    Except Unit (List ChildOrderRequest) × WasmAlgorithm :=
  match res with
  | Except.error _ => (Except.error (), a)
  | Except.ok result =>
    let decoded := a.decode_result result
    match snap with
    | Except.error _ => (Except.error (), decoded.2)
    | Except.ok v => (Except.ok decoded.1, { decoded.2 with plugin_state := v })

/-- Embeds `ExecutionAlgorithm::on_tick` for `WasmAlgorithm` (delegates to
`call_tick`; the marshalled tick itself does not change host state). -/
def WasmAlgorithm.on_tick (a : WasmAlgorithm)
    (res : Except Unit PluginResult) (snap : Except Unit JsonValue) :
    Except Unit (List ChildOrderRequest) × WasmAlgorithm :=
  a.run_callback res snap

/-- Embeds `ExecutionAlgorithm::on_fill` for `WasmAlgorithm` (delegates to
`call_fill`). -/
def WasmAlgorithm.on_fill (a : WasmAlgorithm)
    (res : Except Unit PluginResult) (snap : Except Unit JsonValue) :
    Except Unit (List ChildOrderRequest) × WasmAlgorithm :=
  a.run_callback res snap

/-- Embeds `ExecutionAlgorithm::on_timer` for `WasmAlgorithm` (delegates to
`call_timer`). -/
def WasmAlgorithm.on_timer (a : WasmAlgorithm)
    (res : Except Unit PluginResult) (snap : Except Unit JsonValue) :
    Except Unit (List ChildOrderRequest) × WasmAlgorithm :=
  a.run_callback res snap

/-- Embeds `WasmAlgorithm::call_init` (`adapter.rs`, lines 158–171): decode and
refresh like the other callbacks, then mark the algorithm started — only
when everything succeeded, as the early `?` returns skip the
`self.started = true` line. -/
def WasmAlgorithm.call_init (a : WasmAlgorithm)
    (res : Except Unit PluginResult) (snap : Except Unit JsonValue) :
    Except Unit (List ChildOrderRequest) × WasmAlgorithm :=
  match a.run_callback res snap with
  | (Except.ok orders, a1) => (Except.ok orders, { a1 with started := true })
  | (Except.error e, a1) => (Except.error e, a1)

/-- Embeds `ExecutionAlgorithm::start` for `WasmAlgorithm` (`adapter.rs`, lines
257–262): a second start returns an empty child list without touching the
plugin. -/
def WasmAlgorithm.start (a : WasmAlgorithm)
    (res : Except Unit PluginResult) (snap : Except Unit JsonValue) :
    Except Unit (List ChildOrderRequest) × WasmAlgorithm :=
  if a.started then (Except.ok [], a) else a.call_init res snap

/-- Embeds `ExecutionAlgorithm::cancel` for `WasmAlgorithm` (`adapter.rs`, lines
282–285): unconditionally set Cancelled (the source always returns
`Ok(())`). -/
def WasmAlgorithm.cancel (a : WasmAlgorithm) : WasmAlgorithm :=
  { a with status := AlgoStatus.Cancelled }

/-- Embeds `ExecutionAlgorithm::state` for `WasmAlgorithm` (`adapter.rs`, lines
287–295): the snapshot value the host serializes (serde's derived codec is
faithful, so the embedding keeps the structured value). -/
def WasmAlgorithm.state (a : WasmAlgorithm) : WasmAlgorithmState :=
  { plugin := a.context
    plugin_state := a.plugin_state
    status := a.status
    next_client_seq := a.next_client_seq }

/-- Embeds `WasmAlgorithm::new` (`adapter.rs`, lines 88–101), on the success path
of `engine.instantiate`: fresh id, Working, not yet started, `Value::Null`
plugin state, sequence 0. -/
def WasmAlgorithm.new (id : String) (context : PluginInitContext) :
    WasmAlgorithm :=
  { id := id
    status := AlgoStatus.Working
    started := false
    context := context
    plugin_state := JsonValue.null
    next_client_seq := 0 }

/-- Embeds `WasmAlgorithm::from_snapshot` (`adapter.rs`, lines 103–123), on the
path where instantiation and the sandbox `restore` call succeed: every
host-side field is taken from the snapshot and the algorithm is marked
started. -/
def WasmAlgorithm.from_snapshot (algo_id : String)
    (snapshot : WasmAlgorithmState) : WasmAlgorithm :=
  { id := algo_id
    status := snapshot.status
    started := true
    context := snapshot.plugin
    plugin_state := snapshot.plugin_state
    next_client_seq := snapshot.next_client_seq }

/-- Concrete plugin context used in witnesses. -/
def demoContext : PluginInitContext :=
  { plugin := "twap"
    params := JsonValue.null
    signal := JsonValue.null
    risk := JsonValue.null
    metadata := JsonValue.null }

/-- A completed algorithm instance. -/
def completedAlgo : WasmAlgorithm :=
  { id := "cafe"
    status := AlgoStatus.Completed
    started := true
    context := demoContext
    plugin_state := JsonValue.null
    next_client_seq := 0 }

/-- A freshly created algorithm instance (`WasmAlgorithm::new`). -/
def freshAlgo : WasmAlgorithm :=
  WasmAlgorithm.new "cafe" demoContext

/-- A concrete snapshot value. -/
def demoState : WasmAlgorithmState :=
  { plugin := demoContext
    plugin_state := JsonValue.str "resume-here"
    status := AlgoStatus.Working
    next_client_seq := 3 }

/-- A Place child-order request without a client id. -/
def bareOrder : OrderRequest :=
  mkMarketRequest Side.Buy 1

/-- A Place child-order request that already carries a client id. -/
def namedOrder : OrderRequest :=
  { mkMarketRequest Side.Buy 1 with client_order_id := some "keep-1" }

/-- C1: with the order-size and position checks passing and
`liquidate_only = true`, `BasicRiskChecker::check` returns
`Err(LiquidateOnly)` exactly when the signed position is zero, or the side
does not reduce exposure, or `|quantity| > |position|`; otherwise `Ok(())`. -/
theorem check_liquidate_only_characterization
    (limits : RiskLimits) (request : OrderRequest) (ctx : RiskContext)
    (horder : ¬(limits.max_order_quantity > 0
        ∧ |request.quantity| > limits.max_order_quantity))
    (hpos : ¬(limits.max_position_quantity > 0
        ∧ |projectedPosition request ctx| > limits.max_position_quantity))
    (hliq : ctx.liquidate_only = true) :
    (BasicRiskChecker.check limits request ctx
        = Except.error RiskError.LiquidateOnly
      ↔ (ctx.signed_position_qty = 0
          ∨ ¬((ctx.signed_position_qty > 0 ∧ request.side = Side.Sell)
              ∨ (ctx.signed_position_qty < 0 ∧ request.side = Side.Buy))
          ∨ |request.quantity| > |ctx.signed_position_qty|))
    ∧ (¬(ctx.signed_position_qty = 0
          ∨ ¬((ctx.signed_position_qty > 0 ∧ request.side = Side.Sell)
              ∨ (ctx.signed_position_qty < 0 ∧ request.side = Side.Buy))
          ∨ |request.quantity| > |ctx.signed_position_qty|)
        → BasicRiskChecker.check limits request ctx = Except.ok ()) := by
  have hform : BasicRiskChecker.check limits request ctx
      = (if ctx.signed_position_qty = 0 then
            Except.error RiskError.LiquidateOnly
          else if ¬((ctx.signed_position_qty > 0 ∧ request.side = Side.Sell)
              ∨ (ctx.signed_position_qty < 0 ∧ request.side = Side.Buy)) then
            Except.error RiskError.LiquidateOnly
          else if |request.quantity| > |ctx.signed_position_qty| then
            Except.error RiskError.LiquidateOnly
          else
            Except.ok ()) := by
    unfold BasicRiskChecker.check
    rw [if_neg horder, if_neg hpos, if_pos hliq]
  rw [hform]
  constructor
  · by_cases h1 : ctx.signed_position_qty = 0
    · simp [h1]
    · by_cases h2 : ¬((ctx.signed_position_qty > 0 ∧ request.side = Side.Sell)
          ∨ (ctx.signed_position_qty < 0 ∧ request.side = Side.Buy))
      · simp [h1, h2]
      · by_cases h3 : |request.quantity| > |ctx.signed_position_qty|
        · simp [h1, h2, h3]
        · simp [h1, h2, h3]
  · intro hnone
    push_neg at hnone
    obtain ⟨h1, h2, h3⟩ := hnone
    rw [if_neg h1, if_neg (not_not_intro h2), if_neg (by exact not_lt.mpr h3)]

/-- Witness for C1: the spec's liquidate-only scenario at
`signed_position = +5`, both limits disabled. Sell 3 passes, Sell 6 and
Buy 1 are rejected with `LiquidateOnly`. -/
theorem check_liquidate_only_characterization_witness :
    BasicRiskChecker.check (BasicRiskChecker.new ⟨0, 0⟩)
        (mkMarketRequest Side.Sell 3) (liqCtx 5) = Except.ok ()
    ∧ BasicRiskChecker.check (BasicRiskChecker.new ⟨0, 0⟩)
        (mkMarketRequest Side.Sell 6) (liqCtx 5)
        = Except.error RiskError.LiquidateOnly
    ∧ BasicRiskChecker.check (BasicRiskChecker.new ⟨0, 0⟩)
        (mkMarketRequest Side.Buy 1) (liqCtx 5)
        = Except.error RiskError.LiquidateOnly := by
  refine ⟨?_, ?_, ?_⟩
  · exact (check_liquidate_only_characterization (BasicRiskChecker.new ⟨0, 0⟩)
      (mkMarketRequest Side.Sell 3) (liqCtx 5)
      (by norm_num [BasicRiskChecker.new, RiskLimits.sanitized, mkMarketRequest])
      (by norm_num [BasicRiskChecker.new, RiskLimits.sanitized, mkMarketRequest,
        projectedPosition, liqCtx])
      (by norm_num [liqCtx])).2
      (by norm_num [liqCtx, mkMarketRequest])
  · exact (check_liquidate_only_characterization (BasicRiskChecker.new ⟨0, 0⟩)
      (mkMarketRequest Side.Sell 6) (liqCtx 5)
      (by norm_num [BasicRiskChecker.new, RiskLimits.sanitized, mkMarketRequest])
      (by norm_num [BasicRiskChecker.new, RiskLimits.sanitized, mkMarketRequest,
        projectedPosition, liqCtx])
      (by norm_num [liqCtx])).1.mpr
      (by norm_num [liqCtx, mkMarketRequest])
  · exact (check_liquidate_only_characterization (BasicRiskChecker.new ⟨0, 0⟩)
      (mkMarketRequest Side.Buy 1) (liqCtx 5)
      (by norm_num [BasicRiskChecker.new, RiskLimits.sanitized, mkMarketRequest])
      (by norm_num [BasicRiskChecker.new, RiskLimits.sanitized, mkMarketRequest,
        projectedPosition, liqCtx])
      (by norm_num [liqCtx])).1.mpr
      (by norm_num [liqCtx, mkMarketRequest]; decide)

/-- C2: `check` returns `MaxOrderSize{quantity, limit}` whenever the
order-size limit is enabled and exceeded, regardless of everything else
(so the order-size check precedes all others); and when the order-size
check passes but the position cap is enabled and exceeded, the error is
`MaxPositionExposure` (so the position check precedes liquidate-only). -/
theorem check_max_order_size_precedence
    (limits : RiskLimits) (request : OrderRequest) (ctx : RiskContext) :
    (limits.max_order_quantity > 0
        → |request.quantity| > limits.max_order_quantity
        → BasicRiskChecker.check limits request ctx
          = Except.error (RiskError.MaxOrderSize |request.quantity|
              limits.max_order_quantity))
    ∧ (¬(limits.max_order_quantity > 0
          ∧ |request.quantity| > limits.max_order_quantity)
        → limits.max_position_quantity > 0
        → |projectedPosition request ctx| > limits.max_position_quantity
        → BasicRiskChecker.check limits request ctx
          = Except.error (RiskError.MaxPositionExposure
              (projectedPosition request ctx) limits.max_position_quantity)) := by
  constructor
  · intro h1 h2
    unfold BasicRiskChecker.check
    rw [if_pos ⟨h1, h2⟩]
  · intro h h1 h2
    unfold BasicRiskChecker.check
    rw [if_neg h, if_pos ⟨h1, h2⟩]

/-- Witness for C2: the spec's scenario — limits `{max_order = 1,
max_position = 0}`, request quantity 2 → `MaxOrderSize{2, 1}`. -/
theorem check_max_order_size_precedence_witness :
    BasicRiskChecker.check (BasicRiskChecker.new ⟨1, 0⟩)
        (mkMarketRequest Side.Buy 2) (plainCtx 0)
      = Except.error (RiskError.MaxOrderSize 2 1) := by
  have h := (check_max_order_size_precedence (BasicRiskChecker.new ⟨1, 0⟩)
    (mkMarketRequest Side.Buy 2) (plainCtx 0)).1
    (by norm_num [BasicRiskChecker.new, RiskLimits.sanitized])
    (by norm_num [BasicRiskChecker.new, RiskLimits.sanitized, mkMarketRequest])
  simpa [BasicRiskChecker.new, RiskLimits.sanitized, mkMarketRequest] using h

/-- C3: every order accepted by `BasicRiskChecker::check` while the position
cap is enabled has `|projected position| ≤ max_position_quantity`. -/
theorem check_accepted_respects_position_cap
    (limits : RiskLimits) (request : OrderRequest) (ctx : RiskContext)
    (hok : BasicRiskChecker.check limits request ctx = Except.ok ())
    (hlim : limits.max_position_quantity > 0) :
    |projectedPosition request ctx| ≤ limits.max_position_quantity := by
  by_contra hgt
  push_neg at hgt
  unfold BasicRiskChecker.check at hok
  by_cases h1 : limits.max_order_quantity > 0
      ∧ |request.quantity| > limits.max_order_quantity
  · rw [if_pos h1] at hok
    exact Except.noConfusion hok
  · rw [if_neg h1, if_pos ⟨hlim, hgt⟩] at hok
    exact Except.noConfusion hok

/-- Witness for C3: a Buy of 3 on a position of 2 under cap 10 is accepted
and its projected position 5 is within the cap. -/
theorem check_accepted_respects_position_cap_witness :
    |projectedPosition (mkMarketRequest Side.Buy 3) (plainCtx 2)|
      ≤ (BasicRiskChecker.new ⟨0, 10⟩).max_position_quantity :=
  check_accepted_respects_position_cap (BasicRiskChecker.new ⟨0, 10⟩)
    (mkMarketRequest Side.Buy 3) (plainCtx 2)
    (by norm_num [BasicRiskChecker.check, BasicRiskChecker.new, RiskLimits.sanitized,
      mkMarketRequest, plainCtx, projectedPosition])
    (by norm_num [BasicRiskChecker.new, RiskLimits.sanitized])

/-- C7: `PortfolioPercentSizer::size` errors with `ZeroOrNegativePrice` when
`last_price ≤ 0`; returns `Ok(0)` (not an error) when the price is positive
but the configured percent is ≤ 0; and otherwise returns exactly
`equity · percent / last_price`. -/
theorem portfolio_percent_sizer_size_spec (percent equity last_price : ℚ) :
    (last_price ≤ 0 →
      PortfolioPercentSizer.size percent equity last_price
        = Except.error SizerError.ZeroOrNegativePrice)
    ∧ (0 < last_price → percent ≤ 0 →
      PortfolioPercentSizer.size percent equity last_price = Except.ok 0)
    ∧ (0 < last_price → 0 < percent →
      PortfolioPercentSizer.size percent equity last_price
        = Except.ok (equity * percent / last_price)) := by
  refine ⟨fun h => ?_, fun h1 h2 => ?_, fun h1 h2 => ?_⟩
  · unfold PortfolioPercentSizer.size
    rw [if_pos h]
  · unfold PortfolioPercentSizer.size
    rw [if_neg (not_le.mpr h1), if_pos h2]
  · unfold PortfolioPercentSizer.size
    rw [if_neg (not_le.mpr h1), if_neg (not_le.mpr h2)]

/-- Witness for C7: the spec's scenario — `percent = 0.05`,
`equity = 25000`, `last_price = 50000` gives exactly `0.025`. -/
theorem portfolio_percent_sizer_size_spec_witness :
    PortfolioPercentSizer.size (1/20) 25000 50000 = Except.ok (1/40) := by
  have h := (portfolio_percent_sizer_size_spec (1/20) 25000 50000).2.2
    (by norm_num) (by norm_num)
  rw [h]
  norm_num

/-- C6: a non-positive sized quantity makes `handle_signal` return
`Ok(None)` with no order sent; with a positive quantity the parent request
is a Market order (no price, no trigger) for the sized quantity, client id
equal to the signal id, and side per EnterLong → Buy, EnterShort → Sell,
ExitLong | Flatten → Sell, ExitShort → Buy. -/
theorem handle_signal_sizing_and_parent
    (e : ExecutionEngine) (signal : Signal) (ctx : RiskContext) (qty : ℚ)
    (hs : e.sizer signal ctx.portfolio_equity ctx.last_price = Except.ok qty) :
    (qty ≤ 0 → e.handle_signal signal ctx = (Except.ok none, []))
    ∧ (0 < qty →
        (e.handle_signal signal ctx).2.head?
          = some (ExecutionEngine.build_request signal.symbol
              (parentSide signal.kind) qty (some signal.id)))
    ∧ ExecutionEngine.build_request signal.symbol (parentSide signal.kind)
          qty (some signal.id)
        = { symbol := signal.symbol
            side := parentSide signal.kind
            order_type := OrderType.Market
            quantity := qty
            price := none
            trigger_price := none
            time_in_force := none
            client_order_id := some signal.id
            take_profit := none
            stop_loss := none
            display_quantity := none }
    ∧ (parentSide SignalKind.EnterLong = Side.Buy
        ∧ parentSide SignalKind.EnterShort = Side.Sell
        ∧ parentSide SignalKind.ExitLong = Side.Sell
        ∧ parentSide SignalKind.Flatten = Side.Sell
        ∧ parentSide SignalKind.ExitShort = Side.Buy) := by
  refine ⟨fun hle => ?_, fun hpos => ?_, rfl, rfl, rfl, rfl, rfl, rfl⟩
  · simp [ExecutionEngine.handle_signal, hs, hle]
  · have hq' : ¬ qty ≤ 0 := not_le.mpr hpos
    simp only [ExecutionEngine.handle_signal, hs, if_neg hq']
    cases hso : e.send_order (ExecutionEngine.build_request signal.symbol
        (parentSide signal.kind) qty (some signal.id)) ctx with
    | error err => simp
    | ok order =>
      cases hss : stopSide signal.kind with
      | none => simp
      | some ss => simp

/-- Witness for C6: the zero-sizing engine skips the order; the demo engine
sends a Buy-1 Market parent with client id `sig-1`. -/
theorem handle_signal_sizing_and_parent_witness :
    zeroEngine.handle_signal demoSignal (plainCtx 0) = (Except.ok none, [])
    ∧ (demoEngine.handle_signal demoSignal (plainCtx 0)).2.head?
        = some (ExecutionEngine.build_request "BTCUSDT" Side.Buy 1 (some "sig-1")) := by
  constructor
  · exact (handle_signal_sizing_and_parent zeroEngine demoSignal (plainCtx 0) 0
      rfl).1 le_rfl
  · have h := (handle_signal_sizing_and_parent demoEngine demoSignal (plainCtx 0) 1
      rfl).2.1 (by norm_num)
    simpa [demoSignal, parentSide] using h

/-- C5: when the parent placement succeeds, `handle_signal` returns
`Ok(Some(parent))` whatever the protective legs' outcomes (their results are
discarded); the send log is the parent followed by the protective legs —
StopMarket orders on the side opposite the parent direction with the same
quantity, trigger at the configured level, and client ids `<id>-sl` /
`<id>-tp` — and a Flatten signal sends no protective legs. -/
theorem handle_signal_protective_legs_best_effort
    (e : ExecutionEngine) (signal : Signal) (ctx : RiskContext) (qty : ℚ)
    (order : Order)
    (hs : e.sizer signal ctx.portfolio_equity ctx.last_price = Except.ok qty)
    (hq : 0 < qty)
    (hparent : e.send_order (ExecutionEngine.build_request signal.symbol
        (parentSide signal.kind) qty (some signal.id)) ctx = Except.ok order) :
    (e.handle_signal signal ctx).1 = Except.ok (some order)
    ∧ (e.handle_signal signal ctx).2
        = ExecutionEngine.build_request signal.symbol (parentSide signal.kind)
              qty (some signal.id)
          :: (match stopSide signal.kind with
              | none => []
              | some ss =>
                (match signal.stop_loss with
                  | some sl => [protectiveRequest signal ss qty sl "-sl"]
                  | none => [])
                ++ (match signal.take_profit with
                  | some tp => [protectiveRequest signal ss qty tp "-tp"]
                  | none => []))
    ∧ (signal.kind = SignalKind.Flatten →
        (e.handle_signal signal ctx).2
          = [ExecutionEngine.build_request signal.symbol
              (parentSide signal.kind) qty (some signal.id)])
    ∧ (stopSide SignalKind.EnterLong = some Side.Sell
        ∧ stopSide SignalKind.ExitShort = some Side.Sell
        ∧ stopSide SignalKind.EnterShort = some Side.Buy
        ∧ stopSide SignalKind.ExitLong = some Side.Buy
        ∧ stopSide SignalKind.Flatten = none) := by
  have hq' : ¬ qty ≤ 0 := not_le.mpr hq
  have hh : e.handle_signal signal ctx
      = (Except.ok (some order),
          ExecutionEngine.build_request signal.symbol (parentSide signal.kind)
              qty (some signal.id)
            :: (match stopSide signal.kind with
                | none => []
                | some ss =>
                  (match signal.stop_loss with
                    | some sl => [protectiveRequest signal ss qty sl "-sl"]
                    | none => [])
                  ++ (match signal.take_profit with
                    | some tp => [protectiveRequest signal ss qty tp "-tp"]
                    | none => []))) := by
    simp only [ExecutionEngine.handle_signal, hs, if_neg hq', hparent]
    cases stopSide signal.kind <;> rfl
  refine ⟨?_, ?_, ?_, rfl, rfl, rfl, rfl, rfl⟩
  · rw [hh]
  · rw [hh]
  · intro hflat
    rw [hh, hflat]
    simp [stopSide]

/-- Witness for C5: with the demo engine the parent succeeds, the stop-loss
leg's placement fails with a network error, and `handle_signal` still
returns the parent; the log is the parent plus the two protective legs. -/
theorem handle_signal_protective_legs_best_effort_witness :
    (demoEngine.handle_signal demoSignal (plainCtx 0)).1
        = Except.ok (some (Order.mk "order-1"
            (ExecutionEngine.build_request "BTCUSDT" Side.Buy 1 (some "sig-1"))))
    ∧ demoEngine.place_order (protectiveRequest demoSignal Side.Sell 1 90 "-sl")
        = Except.error (BrokerError.Network "connection reset")
    ∧ (demoEngine.handle_signal demoSignal (plainCtx 0)).2
        = [ExecutionEngine.build_request "BTCUSDT" Side.Buy 1 (some "sig-1"),
           protectiveRequest demoSignal Side.Sell 1 90 "-sl",
           protectiveRequest demoSignal Side.Sell 1 120 "-tp"] := by
  have h := handle_signal_protective_legs_best_effort demoEngine demoSignal
    (plainCtx 0) 1
    (Order.mk "order-1"
      (ExecutionEngine.build_request "BTCUSDT" Side.Buy 1 (some "sig-1")))
    rfl (by norm_num) rfl
  refine ⟨h.1, rfl, ?_⟩
  have h2 := h.2.1
  simpa [demoSignal, parentSide, stopSide] using h2

/-- Embeds `ensure_client_id` only touches the client sequence, never the
status. -/
theorem ensure_client_id_preserves_status (a : WasmAlgorithm)
    (o : OrderRequest) : (a.ensure_client_id o).2.status = a.status := by
  unfold WasmAlgorithm.ensure_client_id
  cases o.client_order_id <;> rfl

/-- Embeds `build_child_request` preserves the status. -/
theorem build_child_request_preserves_status (a : WasmAlgorithm)
    (r : PluginChildOrderRequest) :
    (a.build_child_request r).2.status = a.status := by
  cases hr : r.action with
  | Place o =>
    simp only [WasmAlgorithm.build_child_request, hr]
    exact ensure_client_id_preserves_status a (convert_order_request o)
  | Amend u =>
    simp only [WasmAlgorithm.build_child_request, hr]

/-- The child-order mapping loop preserves the status. -/
theorem mapChildRequests_preserves_status (l : List PluginChildOrderRequest) :
    ∀ a : WasmAlgorithm, (a.mapChildRequests l).2.status = a.status := by
  induction l with
  | nil => intro a; rfl
  | cons req rest ih =>
    intro a
    simp only [WasmAlgorithm.mapChildRequests]
    rw [ih (a.build_child_request req).2,
      build_child_request_preserves_status]

/-- After `decode_result` the status is exactly the one derived from the
guest's `completed` flag. -/
theorem decode_result_status (a : WasmAlgorithm) (result : PluginResult) :
    (a.decode_result result).2.status
      = (if result.completed then AlgoStatus.Completed else AlgoStatus.Working) := by
  unfold WasmAlgorithm.decode_result
  cases hc : result.completed <;>
    simp [hc, mapChildRequests_preserves_status]

/-- After a successfully parsed callback reply, the status comes from the
`completed` flag alone, whatever `refresh_snapshot` does afterwards. -/
theorem run_callback_status (a : WasmAlgorithm) (result : PluginResult)
    (snap : Except Unit JsonValue) :
    (a.run_callback (Except.ok result) snap).2.status
      = (if result.completed then AlgoStatus.Completed else AlgoStatus.Working) := by
  unfold WasmAlgorithm.run_callback
  cases snap with
  | error e => simpa using decode_result_status a result
  | ok v => simpa using decode_result_status a result

/-- C4 counterexample: at the concrete Completed algorithm, an `on_tick`
whose decoded plugin result has `completed = false` moves the status back
to Working, and `cancel` moves Completed to Cancelled — so terminal states
are not sticky for `WasmAlgorithm` and a back-edge to Working exists. -/
theorem wasm_completed_status_reverts :
    completedAlgo.status = AlgoStatus.Completed
    ∧ (completedAlgo.on_tick (Except.ok (PluginResult.mk [] [] false))
          (Except.ok JsonValue.null)).2.status = AlgoStatus.Working
    ∧ completedAlgo.cancel.status = AlgoStatus.Cancelled :=
  ⟨rfl, rfl, rfl⟩

/-- C4 amended: after any callback whose reply decodes, the status is
exactly Completed when the guest reported completion and Working otherwise,
regardless of the prior status; `cancel` sets Cancelled from any state; a
reply that fails to decode leaves the status unchanged.  Hence
`Working → {Completed, Cancelled}` transitions occur as specified, but
terminal states persist only while no further callback is delivered. -/
theorem wasm_status_transitions (a : WasmAlgorithm) (result : PluginResult)
    (snap : Except Unit JsonValue) :
    ((a.on_tick (Except.ok result) snap).2.status
        = (if result.completed then AlgoStatus.Completed else AlgoStatus.Working))
    ∧ ((a.on_fill (Except.ok result) snap).2.status
        = (if result.completed then AlgoStatus.Completed else AlgoStatus.Working))
    ∧ ((a.on_timer (Except.ok result) snap).2.status
        = (if result.completed then AlgoStatus.Completed else AlgoStatus.Working))
    ∧ ((a.on_tick (Except.error ()) snap).2.status = a.status)
    ∧ (a.cancel.status = AlgoStatus.Cancelled) :=
  ⟨run_callback_status a result snap, run_callback_status a result snap,
    run_callback_status a result snap, rfl, rfl⟩

/-- C8: a Place request without a client id gets
`plugin-<algo_id_hex>-<seq:04>` with the sequence bumped by one; a request
that carries an id is untouched; the sequence is part of the `state`
snapshot and `from_snapshot` restores it. -/
theorem ensure_client_id_assignment
    (a : WasmAlgorithm) (order : OrderRequest) (cid : String)
    (i : String) (s : WasmAlgorithmState) :
    (order.client_order_id = none →
      a.ensure_client_id order
        = ({ order with client_order_id := some ("plugin-" ++ a.id ++ "-" ++ pad4 (a.next_client_seq + 1)) },
            { a with next_client_seq := a.next_client_seq + 1 }))
    ∧ (order.client_order_id = some cid →
      a.ensure_client_id order = (order, a))
    ∧ a.state.next_client_seq = a.next_client_seq
    ∧ (WasmAlgorithm.from_snapshot i s).next_client_seq = s.next_client_seq := by
  refine ⟨fun hn => ?_, fun hc => ?_, rfl, rfl⟩
  · simp only [WasmAlgorithm.ensure_client_id, hn]
  · simp only [WasmAlgorithm.ensure_client_id, hc]

/-- Witness for C8: from sequence 0, the first assigned id ends in `0001`,
the second in `0002`, and an existing id is preserved. -/
theorem ensure_client_id_assignment_witness :
    (freshAlgo.ensure_client_id bareOrder).1.client_order_id
        = some "plugin-cafe-0001"
    ∧ ((freshAlgo.ensure_client_id bareOrder).2.ensure_client_id
          bareOrder).1.client_order_id = some "plugin-cafe-0002"
    ∧ freshAlgo.ensure_client_id namedOrder = (namedOrder, freshAlgo) := by
  have h1 := (ensure_client_id_assignment freshAlgo bareOrder "keep-1"
    "cafe" demoState).1 rfl
  have h2 := (ensure_client_id_assignment (freshAlgo.ensure_client_id bareOrder).2
    bareOrder "keep-1" "cafe" demoState).1 rfl
  have h3 := (ensure_client_id_assignment freshAlgo namedOrder "keep-1"
    "cafe" demoState).2.1 rfl
  refine ⟨?_, ?_, h3⟩
  · rw [h1]
    rfl
  · rw [h2]
    rfl

/-- C9: a successful `from_snapshot` copies every snapshot field, so
re-serializing through `state` yields a value equal to the original
snapshot: restore then serialize is the identity. -/
theorem from_snapshot_state_roundtrip (algo_id : String)
    (s : WasmAlgorithmState) :
    (WasmAlgorithm.from_snapshot algo_id s).state = s := by
  cases s
  rfl

/-- C10: `start` on an already-started algorithm returns `Ok` with no child
orders and leaves the algorithm untouched (status, plugin state and client
sequence included), and `from_snapshot` marks the algorithm started — so
`start` is effective at most once per instance. -/
theorem start_effective_at_most_once
    (a : WasmAlgorithm) (res : Except Unit PluginResult)
    (snap : Except Unit JsonValue) (i : String) (s : WasmAlgorithmState)
    (h : a.started = true) :
    a.start res snap = (Except.ok [], a)
    ∧ (WasmAlgorithm.from_snapshot i s).started = true := by
  refine ⟨?_, rfl⟩
  unfold WasmAlgorithm.start
  rw [if_pos h]

/-- Witness for C10: the algorithm restored from the demo snapshot ignores
a second `start` even when the sandbox oracle would fail. -/
theorem start_effective_at_most_once_witness :
    (WasmAlgorithm.from_snapshot "cafe" demoState).start
        (Except.error ()) (Except.error ())
      = (Except.ok [], WasmAlgorithm.from_snapshot "cafe" demoState) :=
  (start_effective_at_most_once (WasmAlgorithm.from_snapshot "cafe" demoState)
    (Except.error ()) (Except.error ()) "cafe" demoState rfl).1

end Tesser
